import Mathlib

/-!
Verification of the perception layer of the wayfinder-web-agent repository:
the Element Indexer (two variants: the simple one in `src/unnamed/part_001`
and the rich one in `src/unnamed/part_002`) and the Annotation Renderer
(`src/unnamed/part_000`, plus the `data-gwa-id` based variant in
`src/agent/browser/utils/dom_utils/draw_bounding_boxes.js`).

The code runs against a live DOM.  We embed a DOM snapshot shallowly:

* every element is a `Row` carrying its static data: tag name, attributes,
  computed style (`display`, `visibility`, `pointer-events`), layout
  measurements (`offsetWidth`/`offsetHeight`, `getBoundingClientRect`),
  `textContent`, the `innerText` property, and the result of
  `document.elementFromPoint` at the center of its bounding box
  (a layout oracle that the browser computes and the scripts only consume);
* `Row.ancestors` lists the node ids of the element's proper DOM ancestors,
  nearest (the `parentElement`) first — the scripts only ever walk upwards;
* a `Doc` is the list of all elements in document order together with the
  viewport dimensions and scroll offsets.

The marker attributes (`data-gwa-id`, `data-bbox-gwa-id`) written by the
indexer and read by the renderer are modelled as association lists from node
id to handle, kept outside the static snapshot: no code path of the scanner
reads them except the reset phase (which deletes all of them), and the
renderer only reads them.  The overlay nodes injected by the renderer carry
no marker attributes and only the reserved class names, so they are modelled
as a separate list of `Overlay` records.

Geometry uses `Int` (client rects and offsets); character counts use Lean
characters for JS string positions.  JS string helpers used by the code
(`replace(/\n/g," ")`, `trim()`, `replace(/\s+/g," ")`, `substring`) are
re-implemented structurally over `List Char` so that everything evaluates
by kernel reduction.
-/

/-- One DOM element, with all the data the scripts read from it. -/
structure Row where
  /-- Unique node id (stands for JS object identity). -/
  nid : Nat
  /-- `tagName.toLowerCase()`. -/
  tag : String
  /-- The `type` property of an `<input>` (already normalized by the browser). -/
  typeAttr : String
  /-- DOM attributes, as (name, value) pairs; at most one binding per name. -/
  attrs : List (String × String)
  /-- `getComputedStyle(e).display`. -/
  display : String
  /-- `getComputedStyle(e).visibility`. -/
  visibility : String
  /-- `getComputedStyle(e).pointerEvents`. -/
  pointerEvents : String
  offsetWidth : Int
  offsetHeight : Int
  /-- `getBoundingClientRect()` of the element (viewport-relative). -/
  rTop : Int
  rLeft : Int
  rWidth : Int
  rHeight : Int
  /-- `textContent` of the element. -/
  textContent : String
  /-- The `innerText` property (rendered text). -/
  innerTextProp : String
  /-- Node id returned by `document.elementFromPoint` at the center of this
  element's bounding box (`none` = the browser returned `null`). -/
  hitCenter : Option Nat
  /-- Node ids of the proper DOM ancestors, nearest (`parentElement`) first. -/
  ancestors : List Nat
deriving DecidableEq, Repr

/-- A DOM snapshot: all elements in document order plus window geometry. -/
structure Doc where
  rows : List Row
  /-- `window.innerHeight || document.documentElement.clientHeight`. -/
  viewportH : Int
  /-- `window.innerWidth || document.documentElement.clientWidth`. -/
  viewportW : Int
  scrollX : Int
  scrollY : Int
deriving DecidableEq, Repr

/-- Resolve a node id to its element (JS object dereference). -/
def byId (d : Doc) (n : Nat) : Option Row :=
  d.rows.find? (fun r => r.nid == n)

/-- `getAttribute(a)`: `some v` when present, `none` for JS `null`. -/
def getAttr? (r : Row) (a : String) : Option String :=
  (r.attrs.find? (fun p => p.1 == a)).map Prod.snd

/-- `getAttribute(a) || ""` style access. -/
def getAttrD (r : Row) (a : String) : String :=
  (getAttr? r a).getD ""

/-- `hasAttribute(a)`. -/
def hasAttr (r : Row) (a : String) : Bool :=
  (getAttr? r a).isSome

/-- The `id` property of an element: the `id` attribute or `""`. -/
def elemId (r : Row) : String :=
  getAttrD r "id"

/-- `a.contains(b)`: `b` is `a` itself or a DOM descendant of `a`. -/
def containsP (d : Doc) (a b : Row) : Prop :=
  a.nid = b.nid ∨ a.nid ∈ b.ancestors

instance (d : Doc) (a b : Row) : Decidable (containsP d a b) := by
  unfold containsP; infer_instance

/-- `element.parentElement`, resolved to a `Row`. -/
def parentRow (d : Doc) (e : Row) : Option Row :=
  e.ancestors.head?.bind (byId d)

/-- Walk the `parentElement` chain (nearest first), returning the first
ancestor satisfying `f`; stops when the chain ends.  This is the shape of
every upward `while` loop in the source. -/
def ancFind (d : Doc) (f : Row → Bool) : List Nat → Option Row
  | [] => none
  | n :: rest =>
    match byId d n with
    | none => none
    | some p => if f p then some p else ancFind d f rest

/-- Whether the upward walk finds a node satisfying `f`. -/
def ancAny (d : Doc) (f : Row → Bool) (l : List Nat) : Bool :=
  (ancFind d f l).isSome

/-- Computed style of a node is `display: none` or `visibility: hidden`. -/
def styleHidden (r : Row) : Bool :=
  decide (r.display = "none" ∨ r.visibility = "hidden")

/-- `isHiddenByAncestors` (part_001 lines 17-26 = part_002 lines 17-26):
walk from the element up through its ancestors; hidden as soon as one node's
computed style is `display: none` or `visibility: hidden`. -/
def isHiddenByAncestors (d : Doc) (e : Row) : Bool :=
  styleHidden e || ancAny d styleHidden e.ancestors

/-- `document.querySelector("label[for=\x22id\x22]")`: first `<label>` in
document order whose `for` attribute equals `idv` exactly. -/
def queryLabelFor (d : Doc) (idv : String) : Option Row :=
  d.rows.find? (fun r => r.tag == "label" && getAttr? r "for" == some idv)

/-- `p.getElementsByTagName("label")`: the `<label>` proper descendants of
`p`, in document order. -/
def labelsUnder (d : Doc) (p : Row) : List Row :=
  d.rows.filter (fun r => r.tag == "label" && decide (p.nid ∈ r.ancestors))

/-- The predicate of the second loop of `getParentWithLabel` (part_001 lines
47-63): the ancestor is itself a `<label>`, or contains a `<label>` whose
`for` matches the element's id or which contains the element. -/
def wrapLabelPred (d : Doc) (e : Row) (p : Row) : Bool :=
  p.tag == "label" ||
    (labelsUnder d p).any (fun lbl =>
      getAttr? lbl "for" == some (elemId e) || decide (containsP d lbl e))

/-- `getParentWithLabel` (part_001 lines 28-66 = part_002 lines 28-66).
First, if the element has an id and the document has a `label[for=id]`, walk
up from `parentElement` to the nearest ancestor containing that label.
Otherwise walk up looking for a `<label>` wrapper or a parent containing a
matching label.  Falls back to the element itself. -/
def gplViaFor (d : Doc) (e : Row) : Option Row :=
  if elemId e ≠ "" then
    match queryLabelFor d (elemId e) with
    | some lbl => ancFind d (fun p => decide (containsP d p lbl)) e.ancestors
    | none => none
  else none

def getParentWithLabel (d : Doc) (e : Row) : Row :=
  match gplViaFor d e with
  | some p => p
  | none =>
    match ancFind d (wrapLabelPred d e) e.ancestors with
    | some p => p
    | none => e

/-- The small-form-element test (part_001 lines 86-90): a radio/checkbox
`<input>` whose own rendered box is at most 1×1px. -/
def isSmallForm (e : Row) : Bool :=
  decide (e.tag = "input" ∧ (e.typeAttr = "radio" ∨ e.typeAttr = "checkbox")
    ∧ e.offsetWidth ≤ 1 ∧ e.offsetHeight ≤ 1)

/-- Whether the element is a radio/checkbox `<input>` (the guard of the
label-hit walk, part_001 lines 121-124). -/
def formToggle (e : Row) : Bool :=
  decide (e.tag = "input" ∧ (e.typeAttr = "radio" ∨ e.typeAttr = "checkbox"))

/-- One step of the label-hit walk (part_001 lines 127-139): the current
node is a `<label>` whose `for` equals the element's id, or it contains the
element. -/
def labelHitNode (d : Doc) (e : Row) (c : Row) : Bool :=
  decide ((c.tag = "label" ∧ getAttr? c "for" = some (elemId e)) ∨ containsP d c e)

/-- The label-hit walk starting at the element found by
`document.elementFromPoint` and climbing through its ancestors. -/
def labelHitWalk (d : Doc) (e : Row) (s : Row) : Bool :=
  labelHitNode d e s || ancAny d (labelHitNode d e) s.ancestors

/-- The radio/checkbox early acceptance of `isElementVisible`: the hit-test
element exists and the label-hit walk from it succeeds. -/
def formHitEarly (d : Doc) (e : Row) : Bool :=
  formToggle e &&
    (match e.hitCenter.bind (byId d) with
     | none => false
     | some s => labelHitWalk d e s)

/-- The general occlusion check failing (part_001 lines 143-150): no element
at the center point, or the element there is unrelated (neither the element,
nor an ancestor, nor a descendant of it). -/
def hitFails (d : Doc) (e : Row) : Bool :=
  match e.hitCenter.bind (byId d) with
  | none => true
  | some s => decide (¬ s.nid = e.nid ∧ ¬ containsP d e s ∧ ¬ containsP d s e)

/-- `isElementVisible` (part_001 lines 68-165 = part_002 lines 68-165),
with the exact branch order of the source. -/
def isElementVisible (d : Doc) (e : Row) : Bool :=
  if isHiddenByAncestors d e = true then false
  else if e.pointerEvents = "none" then false
  else if isSmallForm e = false ∧ (e.offsetWidth ≤ 1 ∨ e.offsetHeight ≤ 1
      ∨ e.visibility = "hidden" ∨ e.display = "none") then false
  else if isSmallForm e = true ∧ (getParentWithLabel d e).nid ≠ e.nid
      ∧ ((getParentWithLabel d e).rWidth ≤ 1 ∨ (getParentWithLabel d e).rHeight ≤ 1)
    then false
  else if formHitEarly d e = true then true
  else if hitFails d e = true then false
  else if e.rWidth * e.rHeight = 0 then false
  else decide (0 ≤ e.rTop ∧ 0 ≤ e.rLeft
      ∧ e.rTop + e.rHeight ≤ d.viewportH ∧ e.rLeft + e.rWidth ≤ d.viewportW)

/-- The candidate selector of part_001 (line 12):
`a, button, input, textarea, select, [role='button'], [role='combobox'],
[role='listbox'], [role='menuitem'], [role='tab'], [role='link']`. -/
def isCandidate1 (r : Row) : Bool :=
  decide (r.tag = "a" ∨ r.tag = "button" ∨ r.tag = "input" ∨ r.tag = "textarea"
    ∨ r.tag = "select"
    ∨ getAttr? r "role" = some "button" ∨ getAttr? r "role" = some "combobox"
    ∨ getAttr? r "role" = some "listbox" ∨ getAttr? r "role" = some "menuitem"
    ∨ getAttr? r "role" = some "tab" ∨ getAttr? r "role" = some "link")

/-- The candidate selector of part_002 (line 12): same as part_001 except
`[role='option']` replaces `[role='listbox']`. -/
def isCandidate2 (r : Row) : Bool :=
  decide (r.tag = "a" ∨ r.tag = "button" ∨ r.tag = "input" ∨ r.tag = "textarea"
    ∨ r.tag = "select"
    ∨ getAttr? r "role" = some "button" ∨ getAttr? r "role" = some "combobox"
    ∨ getAttr? r "role" = some "option" ∨ getAttr? r "role" = some "menuitem"
    ∨ getAttr? r "role" = some "tab" ∨ getAttr? r "role" = some "link")

/-- Drop leading and trailing whitespace (JS `String.prototype.trim`). -/
def trimChars (l : List Char) : List Char :=
  ((l.dropWhile Char.isWhitespace).reverse.dropWhile Char.isWhitespace).reverse

/-- `s.replace(/\n/g, " ").trim()`: the newline pattern is a single
character, so the global replace is a character map. -/
def rnl (s : String) : String :=
  String.mk (trimChars (s.toList.map (fun c => if c = '\n' then ' ' else c)))

/-- `s.replace(/\\n/g, " ").trim()` (part_002 line 288): the regex matches
the two-character sequence backslash-`n`, NOT a newline. -/
def replaceBackslashN : List Char → List Char
  | '\\' :: 'n' :: rest => ' ' :: replaceBackslashN rest
  | c :: rest => c :: replaceBackslashN rest
  | [] => []

def rbs (s : String) : String :=
  String.mk (trimChars (replaceBackslashN s.toList))

/-- Collapse a (right-processed) character list so that runs of spaces
become a single space. -/
def squeezeSpaces : List Char → List Char
  | [] => []
  | c :: cs =>
    let rest := squeezeSpaces cs
    if c = ' ' then
      match rest with
      | ' ' :: _ => rest
      | _ => ' ' :: rest
    else c :: rest

/-- `s.replace(/\s+/g, " ").trim()` (part_001 line 234, part_002 line 295):
every whitespace run becomes a single space, then the ends are trimmed. -/
def collapseWs (s : String) : String :=
  String.mk (trimChars (squeezeSpaces
    (s.toList.map (fun c => if c.isWhitespace then ' ' else c))))

/-- Step (i) of the input-label fallback (part_001 lines 184-193): the text
of an associated `label[for=id]`, or `""`. -/
def labelForText (d : Doc) (e : Row) : String :=
  if elemId e ≠ "" then
    match queryLabelFor d (elemId e) with
    | some lbl => rnl lbl.textContent
    | none => ""
  else ""

/-- Step (ii) (part_001 lines 194-202): the text of a wrapping `<label>`
parent, or `""`. -/
def wrapLabelText (d : Doc) (e : Row) : String :=
  match parentRow d e with
  | some p => if p.tag = "label" then rnl p.textContent else ""
  | none => ""

/-- `element.nextElementSibling`: the first element after `e` in document
order that has the same parent. -/
def nextSib (d : Doc) (e : Row) : Option Row :=
  ((d.rows.dropWhile (fun r => r.nid != e.nid)).drop 1).find?
    (fun r => r.ancestors.head? == e.ancestors.head?)

/-- `element.previousElementSibling`: the last element before `e` in
document order that has the same parent. -/
def prevSib (d : Doc) (e : Row) : Option Row :=
  (d.rows.takeWhile (fun r => r.nid != e.nid)).reverse.find?
    (fun r => r.ancestors.head? == e.ancestors.head?)

/-- Step (iii) (part_001 lines 203-222): the text of an adjacent sibling
`<span>`; the next sibling is preferred, the previous one is used when the
next sibling is missing or not a `<span>`. -/
def spanSiblingText (d : Doc) (e : Row) : String :=
  match nextSib d e with
  | some n =>
    if n.tag = "span" then rnl n.textContent
    else
      match prevSib d e with
      | some p => if p.tag = "span" then rnl p.textContent else ""
      | none => ""
  | none =>
    match prevSib d e with
    | some p => if p.tag = "span" then rnl p.textContent else ""
    | none => ""

/-- The final fallback of part_001 (lines 223-229):
`getAttribute("value") || getAttribute("placeholder") || ""` —
note `""` is falsy in JS, so an empty `value` falls through. -/
def valuePlaceholder (e : Row) : String :=
  if getAttrD e "value" ≠ "" then getAttrD e "value"
  else if getAttrD e "placeholder" ≠ "" then getAttrD e "placeholder"
  else ""

/-- Step 3.5 of part_002 (lines 284-290): the text of the next sibling
element regardless of tag, with the buggy `\\n` replace. -/
def nextAnyText (d : Doc) (e : Row) : String :=
  match nextSib d e with
  | some n => rbs n.textContent
  | none => ""

/-- Inner text of part_001 (lines 179-230): the element's own collapsed
`textContent`; for an `<input>` with empty text, fall back through the
associated label, a wrapping label, an adjacent sibling span, then the
`value`/`placeholder` attributes. -/
def innerText1 (d : Doc) (e : Row) : String :=
  if e.tag = "input" ∧ rnl e.textContent = "" then
    if labelForText d e ≠ "" then labelForText d e
    else if wrapLabelText d e ≠ "" then wrapLabelText d e
    else if spanSiblingText d e ≠ "" then spanSiblingText d e
    else valuePlaceholder e
  else rnl e.textContent

/-- Inner text of part_002 (lines 238-291): starts from the `innerText`
property; for an `<input>` with empty text, falls back through the
associated label, a wrapping label, an adjacent sibling span, then the next
sibling of any tag — there is no `value`/`placeholder` step. -/
def innerText2 (d : Doc) (e : Row) : String :=
  if e.tag = "input" ∧ e.innerTextProp = "" then
    if labelForText d e ≠ "" then labelForText d e
    else if wrapLabelText d e ≠ "" then wrapLabelText d e
    else if spanSiblingText d e ≠ "" then spanSiblingText d e
    else nextAnyText d e
  else e.innerTextProp

/-- The attribute allow-list of part_001 (line 172). -/
def allowAttrs1 : List String := ["aria-label", "alt", "placeholder", "value"]

/-- The attribute string of part_001 (lines 172-177): append each present
allow-listed attribute as ` name="value"`, unmodified. -/
def attrsString1 (e : Row) : String :=
  allowAttrs1.foldl (fun acc a =>
    match getAttr? e a with
    | some v => acc ++ " " ++ a ++ "=\"" ++ v ++ "\""
    | none => acc) ""

/-- The description of part_001 (lines 170-234):
`<tag attrs>innerText</tag>` with whitespace runs collapsed and trimmed. -/
def descr1 (d : Doc) (e : Row) : String :=
  collapseWs ("<" ++ e.tag ++ attrsString1 e ++ ">" ++ innerText1 d e ++ "</" ++ e.tag ++ ">")

/-- The attribute allow-list of part_002 (lines 172-198). -/
def allowAttrs2 : List String :=
  ["id", "name", "role", "type", "value", "placeholder", "title", "alt", "href",
   "checked", "selected", "disabled", "readonly",
   "aria-label", "aria-checked", "aria-selected", "aria-expanded", "aria-pressed",
   "aria-disabled", "aria-current", "aria-haspopup"]

/-- The boolean state attributes normalized to `"true"` when present as the
empty string (part_002 lines 203-219). -/
def boolAttrs2 : List String :=
  ["checked", "selected", "disabled", "readonly", "aria-checked", "aria-selected",
   "aria-expanded", "aria-pressed", "aria-disabled", "aria-current"]

/-- The truncation step of part_002 (lines 229-232): a value longer than 50
characters becomes its first 47 characters followed by `"..."`.  (The JS
guard `attrValue && ...` adds nothing: a value longer than 50 characters is
never the empty string.) -/
def truncVal (v : String) : String :=
  if 50 < v.length then String.mk (v.toList.take 47) ++ "..." else v

/-- Rendering of one allow-listed attribute by part_002 (lines 199-235):
normalize empty boolean attributes to `"true"`, drop other empty values
unless the attribute is `value`/`alt`/`placeholder`/`title`/`href`,
truncate, and serialize as ` name="value"`. -/
def renderAttr2 (e : Row) (a : String) : String :=
  match getAttr? e a with
  | none => ""
  | some v0 =>
    let v1 := if v0 = "" ∧ a ∈ boolAttrs2 then "true" else v0
    if v1 ≠ "" ∨ a = "value" ∨ a = "alt" ∨ a = "placeholder" ∨ a = "title" ∨ a = "href"
    then " " ++ a ++ "=\"" ++ truncVal v1 ++ "\""
    else ""

/-- The attribute string of part_002. -/
def attrsString2 (e : Row) : String :=
  allowAttrs2.foldl (fun acc a => acc ++ renderAttr2 e a) ""

/-- The description of part_002 (lines 170-295). -/
def descr2 (d : Doc) (e : Row) : String :=
  collapseWs ("<" ++ e.tag ++ attrsString2 e ++ ">" ++ innerText2 d e ++ "</" ++ e.tag ++ ">")

/-- Marker attributes written by the indexer: an association list from node
id to handle.  `setAttribute` overwrites an existing binding. -/
def setMarker (m : List (Nat × Nat)) (n : Nat) (h : Nat) : List (Nat × Nat) :=
  if m.any (fun p => p.1 == n) then
    m.map (fun p => if p.1 == n then (n, h) else p)
  else m ++ [(n, h)]

/-- The pair of marker attributes living on the document:
`data-gwa-id` (primary) and `data-bbox-gwa-id` (bbox), each as node id →
handle.  The value written is always the string `gwa-element-{handle}`, so
only the handle is recorded. -/
structure Markers where
  prim : List (Nat × Nat)
  bbox : List (Nat × Nat)
deriving DecidableEq, Repr

/-- The reset phase (part_001 lines 2-8 = part_002 lines 2-8): every
`data-gwa-id` and `data-bbox-gwa-id` attribute is removed from the document,
whatever was there. -/
def resetMarkers (_m : Markers) : Markers := ⟨[], []⟩

/-- State of the indexer loop: the running `visibleIndex`, the accumulated
handle → description map (insertion order = handle order), and the marker
attributes written so far. -/
structure ScanSt where
  idx : Nat
  htmls : List (Nat × String)
  prim : List (Nat × Nat)
  bbox : List (Nat × Nat)
deriving DecidableEq, Repr

/-- bbox marker target (part_001 lines 239-251 = part_002 lines 314-326):
for `input`/`textarea`/`select` the label-bearing ancestor, otherwise the
element itself. -/
def bboxTarget (d : Doc) (e : Row) : Row :=
  if e.tag = "input" ∨ e.tag = "textarea" ∨ e.tag = "select"
  then getParentWithLabel d e else e

/-- Primary marker target of part_001 (line 236): always the element. -/
def primTarget1 (_d : Doc) (e : Row) : Row := e

/-- Primary marker target of part_002 (lines 297-311): an `<input>` whose
client rect is smaller than 5×5px re-routes the primary marker to the
label-bearing ancestor. -/
def primTarget2 (d : Doc) (e : Row) : Row :=
  if e.tag = "input" then
    (if e.rWidth < 5 ∧ e.rHeight < 5 then getParentWithLabel d e else e)
  else e

/-- One iteration of the `elements.forEach` loop (part_001 lines 168-260,
part_002 lines 168-335), parametrized by the description synthesizer and
the primary-marker placement policy of the variant. -/
def scanStep (d : Doc) (de : Doc → Row → String) (pt : Doc → Row → Row)
    (st : ScanSt) (e : Row) : ScanSt :=
  if isElementVisible d e then
    { idx := st.idx + 1,
      htmls := st.htmls ++ [(st.idx, de d e)],
      prim := setMarker st.prim (pt d e).nid st.idx,
      bbox := setMarker st.bbox (bboxTarget d e).nid st.idx }
  else st

/-- The candidates of part_001 in document order. -/
def candidates1 (d : Doc) : List Row := d.rows.filter isCandidate1

/-- The candidates of part_002 in document order. -/
def candidates2 (d : Doc) : List Row := d.rows.filter isCandidate2

/-- The visible candidates of part_001, in document order. -/
def visible1 (d : Doc) : List Row :=
  (candidates1 d).filter (fun e => isElementVisible d e)

/-- The visible candidates of part_002, in document order. -/
def visible2 (d : Doc) : List Row :=
  (candidates2 d).filter (fun e => isElementVisible d e)

/-- The scan of part_001: reset the markers (whatever `m` held), then walk
the candidates in document order, numbering the visible ones from 0. -/
def scan1 (d : Doc) (m : Markers) : ScanSt :=
  let m0 := resetMarkers m
  (candidates1 d).foldl (scanStep d descr1 primTarget1)
    ⟨0, [], m0.prim, m0.bbox⟩

/-- The scan of part_002. -/
def scan2 (d : Doc) (m : Markers) : ScanSt :=
  let m0 := resetMarkers m
  (candidates2 d).foldl (scanStep d descr2 primTarget2)
    ⟨0, [], m0.prim, m0.bbox⟩

/-- An overlay node injected by the renderer: its class name (`GWA-rect` or
`GWA-label`), its absolute position/size, and the handle it displays.  The
label node has no programmatic size; 0 is recorded.  Fixed cosmetic styles
(colors, font, z-index) are constants in the source and are not modelled. -/
structure Overlay where
  cls : String
  top : Int
  left : Int
  width : Int
  height : Int
  idx : Nat
deriving DecidableEq, Repr

/-- `document.querySelector("[data-bbox-gwa-id=\x22gwa-element-i\x22]")`
(part_000 lines 24-26): the first element in document order whose bbox
marker parses to `i`. -/
def resolveBbox (d : Doc) (bbox : List (Nat × Nat)) (i : Nat) : Option Row :=
  d.rows.find? (fun r => List.lookup r.nid bbox == some i)

/-- The rectangle and label nodes created for one resolved element
(part_000 lines 29-69): positions are the client rect shifted by the scroll
offsets; the label is raised by 16px when the element is smaller than
24×24px. -/
def overlayNodes (d : Doc) (el : Row) (i : Nat) : List Overlay :=
  let adjTop := el.rTop + d.scrollY
  let adjLeft := el.rLeft + d.scrollX
  let lblTop := if el.rHeight < 24 ∨ el.rWidth < 24 then adjTop - 16 else adjTop
  [⟨"GWA-rect", adjTop, adjLeft, el.rWidth, el.rHeight, i⟩,
   ⟨"GWA-label", lblTop, adjLeft, 0, 0, i⟩]

/-- One iteration of `indices.forEach` (part_000 lines 23-70): a handle with
no marked element is skipped, otherwise the two overlay nodes are appended
to the body. -/
def drawOne (d : Doc) (bbox : List (Nat × Nat)) (st : List Overlay) (i : Nat) :
    List Overlay :=
  match resolveBbox d bbox i with
  | none => st
  | some el => st ++ overlayNodes d el i

/-- The nodes contributed by one handle (empty when it resolves
to nothing). -/
def drawNodes (d : Doc) (bbox : List (Nat × Nat)) (i : Nat) : List Overlay :=
  match resolveBbox d bbox i with
  | none => []
  | some el => overlayNodes d el i

/-- The clear phase (part_000 lines 12-20): remove every node with class
`GWA-rect`, then every node with class `GWA-label`. -/
def clearOverlays (ov : List Overlay) : List Overlay :=
  (ov.filter (fun o => o.cls != "GWA-rect")).filter (fun o => o.cls != "GWA-label")

/-- The default indices of part_000 (lines 3-10): for every element carrying
a PRIMARY marker (`querySelectorAll("[data-gwa-id]")`, document order), read
its `data-bbox-gwa-id` attribute and parse the trailing integer; a missing
attribute parses as 0 (`id?.replace(...) || "0"`). -/
def defaultIndices000 (d : Doc) (prim bbox : List (Nat × Nat)) : List Nat :=
  (d.rows.filter (fun r => (List.lookup r.nid prim).isSome)).map
    (fun r =>
      match List.lookup r.nid bbox with
      | some h => h
      | none => 0)

/-- The renderer of part_000: `(indices) => { ... }`.  Takes the current
document, marker attributes and overlay nodes; returns the new overlay list
and the integer the script returns (`indices.length`). -/
def draw000 (d : Doc) (prim bbox : List (Nat × Nat)) (ov : List Overlay)
    (indices : List Nat) : List Overlay × Nat :=
  let idxs := if indices.isEmpty then defaultIndices000 d prim bbox else indices
  let cleared := clearOverlays ov
  (idxs.foldl (drawOne d bbox) cleared, idxs.length)

/-- Claimed default indices, for comparison (claim C6 / spec 4.2 step 1):
"default to all elements currently carrying a bbox marker, by reading the
marker attribute back off the DOM and parsing the trailing integer". -/
def claimedDefaultIndices (d : Doc) (bbox : List (Nat × Nat)) : List Nat :=
  (d.rows.filter (fun r => (List.lookup r.nid bbox).isSome)).map
    (fun r => (List.lookup r.nid bbox).getD 0)

/-- First non-empty string of a list, else `""` — the shape of a fallback
chain. -/
def firstNonEmpty : List String → String
  | [] => ""
  | s :: rest => if s ≠ "" then s else firstNonEmpty rest

/-- Claimed five-step input-text fallback chain, for comparison (claim C8 /
spec 4.1 step 6): label `for`-text, wrapping label text, adjacent sibling
span text, any adjacent sibling text (next then previous), then the
`value`/`placeholder` attribute. -/
def claimedFallbackChain (d : Doc) (e : Row) : String :=
  firstNonEmpty
    [labelForText d e, wrapLabelText d e, spanSiblingText d e,
     (match nextSib d e with
      | some n => rnl n.textContent
      | none =>
        match prevSib d e with
        | some p => rnl p.textContent
        | none => ""),
     valuePlaceholder e]

/-! ### Structural lemmas about the upward walks -/

theorem ancFind_mem_rows (d : Doc) (f : Row → Bool) :
    ∀ (l : List Nat) (p : Row), ancFind d f l = some p → p ∈ d.rows := by
  intro l
  induction l with
  | nil => intro p h; simp [ancFind] at h
  | cons n rest ih =>
    intro p h
    unfold ancFind at h
    split at h
    · exact absurd h (by simp)
    · next q hb =>
      split at h
      · have hqp : q = p := by simpa using h
        subst hqp
        exact List.mem_of_find?_eq_some hb
      · exact ih p h

theorem ancFind_nid (d : Doc) (f : Row → Bool) :
    ∀ (l : List Nat) (p : Row), ancFind d f l = some p → p.nid ∈ l := by
  intro l
  induction l with
  | nil => intro p h; simp [ancFind] at h
  | cons n rest ih =>
    intro p h
    unfold ancFind at h
    split at h
    · exact absurd h (by simp)
    · next q hb =>
      split at h
      · have hqp : q = p := by simpa using h
        subst hqp
        have hn : (q.nid == n) = true := by simpa [byId] using List.find?_some hb
        have : q.nid = n := by simpa using hn
        simp [this]
      · exact List.mem_cons_of_mem _ (ih p h)

theorem gplViaFor_some (d : Doc) (e : Row) (p : Row) (h : gplViaFor d e = some p) :
    ∃ g, ancFind d g e.ancestors = some p := by
  unfold gplViaFor at h
  split at h
  · split at h
    · exact ⟨_, h⟩
    · exact absurd h (by simp)
  · exact absurd h (by simp)

theorem getParentWithLabel_self_or_anc (d : Doc) (e : Row) :
    getParentWithLabel d e = e ∨ (getParentWithLabel d e).nid ∈ e.ancestors := by
  unfold getParentWithLabel
  split
  · next p hp =>
    obtain ⟨g, hg⟩ := gplViaFor_some d e p hp
    right; exact ancFind_nid d g e.ancestors p hg
  · next hnone =>
    split
    · next p hp => right; exact ancFind_nid d _ e.ancestors p hp
    · left; rfl

theorem getParentWithLabel_mem (d : Doc) (e : Row) (he : e ∈ d.rows) :
    getParentWithLabel d e ∈ d.rows := by
  unfold getParentWithLabel
  split
  · next p hp =>
    obtain ⟨g, hg⟩ := gplViaFor_some d e p hp
    exact ancFind_mem_rows d g e.ancestors p hg
  · next hnone =>
    split
    · next p hp => exact ancFind_mem_rows d _ e.ancestors p hp
    · exact he

theorem bboxTarget_self_or_anc (d : Doc) (e : Row) :
    bboxTarget d e = e ∨ (bboxTarget d e).nid ∈ e.ancestors := by
  unfold bboxTarget
  split
  · exact getParentWithLabel_self_or_anc d e
  · left; rfl

theorem bboxTarget_mem (d : Doc) (e : Row) (he : e ∈ d.rows) :
    bboxTarget d e ∈ d.rows := by
  unfold bboxTarget
  split
  · exact getParentWithLabel_mem d e he
  · exact he

/-! ### Characterization of the scan fold -/

theorem foldl_scanStep_idx (d : Doc) (de : Doc → Row → String) (pt : Doc → Row → Row) :
    ∀ (l : List Row) (st : ScanSt),
      (l.foldl (scanStep d de pt) st).idx
        = st.idx + (l.filter (fun e => isElementVisible d e)).length := by
  intro l
  induction l with
  | nil => intro st; simp
  | cons a t ih =>
    intro st
    by_cases h : isElementVisible d a
    · simp only [List.foldl_cons, List.filter_cons, h, if_pos, scanStep, if_true]
      rw [ih]
      simp only [List.length_cons]
      omega
    · simp only [List.foldl_cons, List.filter_cons, h, scanStep]
      rw [if_neg (by simp [h]), ih]
      simp [h]

theorem foldl_scanStep_htmls (d : Doc) (de : Doc → Row → String) (pt : Doc → Row → Row) :
    ∀ (l : List Row) (st : ScanSt),
      (l.foldl (scanStep d de pt) st).htmls
        = st.htmls ++ (List.enumFrom st.idx (l.filter (fun e => isElementVisible d e))).map
            (fun p => (p.1, de d p.2)) := by
  intro l
  induction l with
  | nil => intro st; simp
  | cons a t ih =>
    intro st
    by_cases h : isElementVisible d a
    · simp only [List.foldl_cons, List.filter_cons, h, if_true, scanStep]
      rw [ih]
      simp [List.enumFrom, List.append_assoc]
    · simp only [List.foldl_cons, List.filter_cons, h, scanStep]
      rw [if_neg (by simp [h]), ih]
      simp [h]

theorem foldl_scanStep_prim (d : Doc) (de : Doc → Row → String) (pt : Doc → Row → Row) :
    ∀ (l : List Row) (st : ScanSt),
      (l.foldl (scanStep d de pt) st).prim
        = (List.enumFrom st.idx (l.filter (fun e => isElementVisible d e))).foldl
            (fun mk p => setMarker mk (pt d p.2).nid p.1) st.prim := by
  intro l
  induction l with
  | nil => intro st; simp
  | cons a t ih =>
    intro st
    by_cases h : isElementVisible d a
    · simp only [List.foldl_cons, List.filter_cons, h, if_true, scanStep]
      rw [ih]
      simp [List.enumFrom]
    · simp only [List.foldl_cons, List.filter_cons, h, scanStep]
      rw [if_neg (by simp [h]), ih]
      simp [h]

theorem foldl_scanStep_bbox (d : Doc) (de : Doc → Row → String) (pt : Doc → Row → Row) :
    ∀ (l : List Row) (st : ScanSt),
      (l.foldl (scanStep d de pt) st).bbox
        = (List.enumFrom st.idx (l.filter (fun e => isElementVisible d e))).foldl
            (fun mk p => setMarker mk (bboxTarget d p.2).nid p.1) st.bbox := by
  intro l
  induction l with
  | nil => intro st; simp
  | cons a t ih =>
    intro st
    by_cases h : isElementVisible d a
    · simp only [List.foldl_cons, List.filter_cons, h, if_true, scanStep]
      rw [ih]
      simp [List.enumFrom]
    · simp only [List.foldl_cons, List.filter_cons, h, scanStep]
      rw [if_neg (by simp [h]), ih]
      simp [h]

/-! ### Marker attribute lemmas -/

/-- An element carries at most one value per attribute name. -/
def keysNodup (m : List (Nat × Nat)) : Prop := (m.map Prod.fst).Nodup

instance (m : List (Nat × Nat)) : Decidable (keysNodup m) := by
  unfold keysNodup; infer_instance

theorem setMarker_map_fst_present (m : List (Nat × Nat)) (n h : Nat) :
    (m.map (fun p => if p.1 == n then (n, h) else p)).map Prod.fst
      = m.map Prod.fst := by
  rw [List.map_map]
  apply List.map_congr_left
  intro p _
  by_cases hp : p.1 = n
  · simp [hp]
  · simp [hp]

theorem setMarker_keysNodup (m : List (Nat × Nat)) (n h : Nat)
    (hm : keysNodup m) : keysNodup (setMarker m n h) := by
  unfold setMarker
  by_cases hc : m.any (fun p => p.1 == n) = true
  · rw [if_pos hc]
    unfold keysNodup
    rw [setMarker_map_fst_present]
    exact hm
  · rw [if_neg hc]
    unfold keysNodup
    rw [List.map_append]
    have hn : n ∉ m.map Prod.fst := by
      intro hmem
      apply hc
      rw [List.any_eq_true]
      obtain ⟨p, hp, hfst⟩ := List.mem_map.mp hmem
      exact ⟨p, hp, by simp [hfst]⟩
    rw [List.nodup_append]
    refine ⟨hm, by simp, ?_⟩
    intro a ha hb
    have : a = n := by simpa using hb
    exact hn (this ▸ ha)

theorem setMarker_fresh (m : List (Nat × Nat)) (n h : Nat)
    (hn : n ∉ m.map Prod.fst) : setMarker m n h = m ++ [(n, h)] := by
  unfold setMarker
  rw [if_neg]
  intro hc
  rw [List.any_eq_true] at hc
  obtain ⟨p, hp, hfst⟩ := hc
  exact hn (List.mem_map.mpr ⟨p, hp, by simpa using hfst⟩)

theorem markerFold_keysNodup (g : Nat × Row → Nat) :
    ∀ (l : List (Nat × Row)) (acc : List (Nat × Nat)), keysNodup acc →
      keysNodup (l.foldl (fun mk p => setMarker mk (g p) p.1) acc) := by
  intro l
  induction l with
  | nil => intro acc hacc; simpa using hacc
  | cons a t ih =>
    intro acc hacc
    simp only [List.foldl_cons]
    exact ih _ (setMarker_keysNodup acc (g a) a.1 hacc)

theorem markerFold_eq_append (g : Nat × Row → Nat) :
    ∀ (l : List (Nat × Row)) (acc : List (Nat × Nat)),
      (l.map g).Nodup → (∀ p ∈ l, g p ∉ acc.map Prod.fst) →
      l.foldl (fun mk p => setMarker mk (g p) p.1) acc
        = acc ++ l.map (fun p => (g p, p.1)) := by
  intro l
  induction l with
  | nil => intro acc _ _; simp
  | cons a t ih =>
    intro acc hnd hdisj
    simp only [List.foldl_cons]
    rw [List.map_cons] at hnd
    have hna := (List.nodup_cons.mp hnd).1
    have hnt := (List.nodup_cons.mp hnd).2
    rw [setMarker_fresh acc (g a) a.1 (hdisj a (by simp))]
    rw [ih (acc ++ [(g a, a.1)]) hnt]
    · simp
    · intro p hp
      rw [List.map_append]
      simp only [List.mem_append]
      push_neg
      refine ⟨hdisj p (by simp [hp]), ?_⟩
      have hne : g p ≠ g a := by
        intro hEq
        exact hna (hEq ▸ List.mem_map.mpr ⟨p, hp, rfl⟩)
      simpa using hne

theorem lookup_iff_mem_of_keysNodup (l : List (Nat × Nat)) (hl : keysNodup l)
    (a b : Nat) : List.lookup a l = some b ↔ (a, b) ∈ l := by
  induction l with
  | nil => simp [List.lookup]
  | cons kv t ih =>
    obtain ⟨k, v⟩ := kv
    unfold keysNodup at hl
    rw [List.map_cons] at hl
    have hk : k ∉ t.map Prod.fst := (List.nodup_cons.mp hl).1
    have ht : keysNodup t := (List.nodup_cons.mp hl).2
    by_cases hak : a = k
    · subst hak
      simp only [List.lookup, beq_self_eq_true]
      constructor
      · intro hsome
        have : v = b := by simpa using hsome
        simp [this]
      · intro hmem
        rcases List.mem_cons.mp hmem with heq | hmemt
        · simp at heq
          simp [heq]
        · exact absurd (List.mem_map.mpr ⟨(a, b), hmemt, rfl⟩) hk
    · have hbeq : (a == k) = false := by simpa using hak
      simp only [List.lookup, hbeq]
      rw [ih ht]
      constructor
      · intro hmemt; exact List.mem_cons_of_mem _ hmemt
      · intro hmem
        rcases List.mem_cons.mp hmem with heq | hmemt
        · exact absurd (congrArg Prod.fst heq) hak
        · exact hmemt

/-! ### Renderer lemmas -/

theorem foldl_drawOne_eq (d : Doc) (bbox : List (Nat × Nat)) :
    ∀ (l : List Nat) (acc : List Overlay),
      l.foldl (drawOne d bbox) acc = acc ++ l.flatMap (drawNodes d bbox) := by
  intro l
  induction l with
  | nil => intro acc; simp
  | cons a t ih =>
    intro acc
    simp only [List.foldl_cons, List.flatMap_cons]
    have hstep : drawOne d bbox acc a = acc ++ drawNodes d bbox a := by
      unfold drawOne drawNodes
      split <;> simp
    rw [hstep, ih]
    simp [List.append_assoc]

theorem clearOverlays_append (a b : List Overlay) :
    clearOverlays (a ++ b) = clearOverlays a ++ clearOverlays b := by
  unfold clearOverlays
  simp [List.filter_append]

theorem clearOverlays_idem (ov : List Overlay) :
    clearOverlays (clearOverlays ov) = clearOverlays ov := by
  unfold clearOverlays
  have h1 : ∀ o ∈ (ov.filter (fun o => o.cls != "GWA-rect")).filter
      (fun o => o.cls != "GWA-label"), (o.cls != "GWA-rect") = true := by
    intro o ho
    exact (List.mem_filter.mp (List.mem_of_mem_filter ho)).2
  have h2 : ∀ o ∈ (ov.filter (fun o => o.cls != "GWA-rect")).filter
      (fun o => o.cls != "GWA-label"), (o.cls != "GWA-label") = true := by
    intro o ho
    exact (List.mem_filter.mp ho).2
  rw [List.filter_eq_self.mpr h1, List.filter_eq_self.mpr h2]

theorem drawNodes_cls (d : Doc) (bbox : List (Nat × Nat)) (i : Nat) (o : Overlay)
    (ho : o ∈ drawNodes d bbox i) : o.cls = "GWA-rect" ∨ o.cls = "GWA-label" := by
  unfold drawNodes at ho
  split at ho
  · simp at ho
  · unfold overlayNodes at ho
    rcases List.mem_cons.mp ho with h | h
    · left; rw [h]
    · right
      have : o ∈ [_] := h
      simp at this
      rw [this]

theorem clearOverlays_drawNodes (d : Doc) (bbox : List (Nat × Nat)) (l : List Nat) :
    clearOverlays (l.flatMap (drawNodes d bbox)) = [] := by
  unfold clearOverlays
  rw [List.filter_eq_nil_iff]
  intro o ho
  have ho1 := List.mem_of_mem_filter ho
  have ho2 := (List.mem_filter.mp ho).2
  obtain ⟨i, _, hoi⟩ := List.mem_flatMap.mp ho1
  rcases drawNodes_cls d bbox i o hoi with h | h
  · simp [h] at ho2
  · simp [h]

theorem countP_drawNodes_rect (d : Doc) (bbox : List (Nat × Nat)) (i : Nat) :
    (drawNodes d bbox i).countP (fun o => o.cls == "GWA-rect")
      = if (resolveBbox d bbox i).isSome then 1 else 0 := by
  unfold drawNodes
  split
  · next h => simp [h]
  · next el h => simp [h, overlayNodes, List.countP_cons]

theorem countP_flatMap_rect (d : Doc) (bbox : List (Nat × Nat)) :
    ∀ (l : List Nat),
      (l.flatMap (drawNodes d bbox)).countP (fun o => o.cls == "GWA-rect")
        = l.countP (fun i => (resolveBbox d bbox i).isSome) := by
  intro l
  induction l with
  | nil => simp
  | cons a t ih =>
    rw [List.flatMap_cons, List.countP_append, ih, countP_drawNodes_rect]
    rw [List.countP_cons]
    omega

theorem countP_clearOverlays_zero (ov : List Overlay) (q : Overlay → Bool)
    (hq : ∀ o, q o = true → o.cls = "GWA-rect" ∨ o.cls = "GWA-label") :
    (clearOverlays ov).countP q = 0 := by
  rw [List.countP_eq_zero]
  intro o ho hqo
  have h1 := (List.mem_filter.mp (List.mem_of_mem_filter ho)).2
  have h2 := (List.mem_filter.mp ho).2
  rcases hq o hqo with h | h
  · simp [h] at h1
  · simp [h] at h2

theorem countP_drawNodes_other (d : Doc) (bbox : List (Nat × Nat)) (i j : Nat)
    (q : Overlay → Bool) (hq : ∀ o, q o = true → o.idx = i) (hne : j ≠ i) :
    (drawNodes d bbox j).countP q = 0 := by
  rw [List.countP_eq_zero]
  intro o ho hqo
  apply hne
  rw [← hq o hqo]
  unfold drawNodes at ho
  split at ho
  · simp at ho
  · unfold overlayNodes at ho
    rcases List.mem_cons.mp ho with h | h
    · rw [h]
    · have : o ∈ [_] := h
      simp at this
      rw [this]

theorem countP_flatMap_zero (g : Nat → List Overlay) (q : Overlay → Bool) :
    ∀ (l : List Nat), (∀ j ∈ l, (g j).countP q = 0) →
      (l.flatMap g).countP q = 0 := by
  intro l
  induction l with
  | nil => simp
  | cons a t ih =>
    intro hz
    rw [List.flatMap_cons, List.countP_append, hz a (by simp), ih]
    intro j hj
    exact hz j (by simp [hj])

theorem countP_flatMap_single (g : Nat → List Overlay) (q : Overlay → Bool)
    (i : Nat) (hz : ∀ j, j ≠ i → (g j).countP q = 0) :
    ∀ (l : List Nat), l.Nodup → i ∈ l →
      (l.flatMap g).countP q = (g i).countP q := by
  intro l
  induction l with
  | nil => intro _ h; simp at h
  | cons a t ih =>
    intro hnd hi
    rw [List.flatMap_cons, List.countP_append]
    by_cases hai : a = i
    · subst hai
      have hnotin := (List.nodup_cons.mp hnd).1
      rw [countP_flatMap_zero g q t (fun j hj => hz j (fun hEq => hnotin (hEq ▸ hj)))]
      omega
    · have hit : i ∈ t := by
        rcases List.mem_cons.mp hi with h | h
        · exact absurd h.symm hai
        · exact h
      rw [hz a hai, ih (List.nodup_cons.mp hnd).2 hit]
      omega

/-! ### Concrete documents for counterexamples and witnesses -/

/-- A neutral visible block element; concrete rows below override fields. -/
def baseRow : Row where
  nid := 0
  tag := "div"
  typeAttr := ""
  attrs := []
  display := "block"
  visibility := "visible"
  pointerEvents := "auto"
  offsetWidth := 100
  offsetHeight := 100
  rTop := 0
  rLeft := 0
  rWidth := 100
  rHeight := 100
  textContent := ""
  innerTextProp := ""
  hitCenter := none
  ancestors := []

/-- No markers on the document (fresh page). -/
def noMarkers : Markers := ⟨[], []⟩

/-- C2 counterexample page: one `<label>` (node 1) wrapping two visible text
inputs (nodes 2 and 3).  Both inputs share the same label-bearing ancestor. -/
def c2Lbl : Row :=
  { baseRow with
      nid := 1
      tag := "label"
      rWidth := 200
      rHeight := 60
      textContent := "Choose" }

def c2InA : Row :=
  { baseRow with
      nid := 2
      tag := "input"
      typeAttr := "text"
      offsetWidth := 50
      offsetHeight := 20
      rTop := 10
      rLeft := 10
      rWidth := 50
      rHeight := 20
      hitCenter := some 2
      ancestors := [1] }

def c2InB : Row :=
  { baseRow with
      nid := 3
      tag := "input"
      typeAttr := "text"
      offsetWidth := 50
      offsetHeight := 20
      rTop := 35
      rLeft := 10
      rWidth := 50
      rHeight := 20
      hitCenter := some 3
      ancestors := [1] }

def c2Doc : Doc where
  rows := [c2Lbl, c2InA, c2InB]
  viewportH := 600
  viewportW := 800
  scrollX := 0
  scrollY := 0

/-- C2 witness page: a single visible `<button>`. -/
def c2wBtn : Row :=
  { baseRow with
      nid := 1
      tag := "button"
      offsetWidth := 80
      offsetHeight := 30
      rWidth := 80
      rHeight := 30
      hitCenter := some 1
      textContent := "Go"
      innerTextProp := "Go" }

def c2wDoc : Doc where
  rows := [c2wBtn]
  viewportH := 600
  viewportW := 800
  scrollX := 0
  scrollY := 0

/-- C3 counterexample page: a checkbox (node 2, id `cb`) whose bounding box
sticks out above the viewport (`top = -10`), overlaid by its
`label[for="cb"]` (node 1), which is what `elementFromPoint` returns at the
checkbox's center. -/
def c3Lbl : Row :=
  { baseRow with
      nid := 1
      tag := "label"
      attrs := [("for", "cb")]
      rWidth := 100
      rHeight := 30
      textContent := "Agree" }

def c3Cb : Row :=
  { baseRow with
      nid := 2
      tag := "input"
      typeAttr := "checkbox"
      attrs := [("id", "cb")]
      offsetWidth := 20
      offsetHeight := 40
      rTop := -10
      rLeft := 10
      rWidth := 20
      rHeight := 40
      hitCenter := some 1 }

def c3xDoc : Doc where
  rows := [c3Lbl, c3Cb]
  viewportH := 600
  viewportW := 800
  scrollX := 0
  scrollY := 0

/-- C3 witness page: a `display:none` button (node 1) and a button fully
below the viewport (node 2, top 700 in a 600px viewport). -/
def c3wHidden : Row :=
  { baseRow with
      nid := 1
      tag := "button"
      display := "none" }

def c3wBelow : Row :=
  { baseRow with
      nid := 2
      tag := "button"
      offsetWidth := 80
      offsetHeight := 30
      rTop := 700
      rWidth := 80
      rHeight := 30
      hitCenter := some 2 }

def c3wDoc : Doc where
  rows := [c3wHidden, c3wBelow]
  viewportH := 600
  viewportW := 800
  scrollX := 0
  scrollY := 0

/-- C4 witness page: a 0×0px checkbox (node 2) wrapped in a visibly sized
`<label>` (node 1, 120×30); the hit test at the checkbox's center lands on
the label. -/
def c4Lbl : Row :=
  { baseRow with
      nid := 1
      tag := "label"
      rWidth := 120
      rHeight := 30
      textContent := "Subscribe" }

def c4Cb : Row :=
  { baseRow with
      nid := 2
      tag := "input"
      typeAttr := "checkbox"
      offsetWidth := 0
      offsetHeight := 0
      rTop := 5
      rLeft := 5
      rWidth := 0
      rHeight := 0
      hitCenter := some 1
      ancestors := [1] }

def c4wDoc : Doc where
  rows := [c4Lbl, c4Cb]
  viewportH := 600
  viewportW := 800
  scrollX := 0
  scrollY := 0

/-- C5/C7 witness page: one visible button, scanned so that handle 0 is
marked on it. -/
def c5Btn : Row :=
  { baseRow with
      nid := 1
      tag := "button"
      offsetWidth := 80
      offsetHeight := 30
      rTop := 10
      rLeft := 10
      rWidth := 80
      rHeight := 30
      hitCenter := some 1
      textContent := "Ok"
      innerTextProp := "Ok" }

def c5Doc : Doc where
  rows := [c5Btn]
  viewportH := 600
  viewportW := 800
  scrollX := 0
  scrollY := 0

/-- C6 counterexample page: a visible button (node 1) and a visible text
input (node 3) wrapped in a `<label>` (node 2).  After the part_001 scan the
input carries only the primary marker (its bbox marker went to the label). -/
def c6Btn : Row :=
  { baseRow with
      nid := 1
      tag := "button"
      offsetWidth := 80
      offsetHeight := 30
      rWidth := 80
      rHeight := 30
      hitCenter := some 1
      textContent := "Go"
      innerTextProp := "Go" }

def c6Lbl : Row :=
  { baseRow with
      nid := 2
      tag := "label"
      rTop := 40
      rWidth := 200
      rHeight := 40
      textContent := "Name" }

def c6In : Row :=
  { baseRow with
      nid := 3
      tag := "input"
      typeAttr := "text"
      offsetWidth := 100
      offsetHeight := 20
      rTop := 50
      rLeft := 10
      rWidth := 100
      rHeight := 20
      hitCenter := some 3
      ancestors := [2] }

def c6Doc : Doc where
  rows := [c6Btn, c6Lbl, c6In]
  viewportH := 600
  viewportW := 800
  scrollX := 0
  scrollY := 0

/-- C8 counterexample pages.  Page A: an input whose only describable datum
is its `value` attribute (claim step (v)), which part_002 never reads.
Page B: an input whose only adjacent sibling is a `<div>Prev</div>` before
it (claim step (iv)), which part_001 never reads. -/
def c8VIn : Row :=
  { baseRow with
      nid := 1
      tag := "input"
      typeAttr := "text"
      attrs := [("value", "V")]
      offsetWidth := 100
      offsetHeight := 20
      rWidth := 100
      rHeight := 20
      hitCenter := some 1 }

def c8xDocA : Doc where
  rows := [c8VIn]
  viewportH := 600
  viewportW := 800
  scrollX := 0
  scrollY := 0

def c8Div : Row :=
  { baseRow with
      nid := 1
      tag := "div"
      textContent := "Prev"
      rWidth := 60
      rHeight := 20 }

def c8PIn : Row :=
  { baseRow with
      nid := 2
      tag := "input"
      typeAttr := "text"
      offsetWidth := 100
      offsetHeight := 20
      rTop := 30
      rWidth := 100
      rHeight := 20
      hitCenter := some 2 }

def c8xDocB : Doc where
  rows := [c8Div, c8PIn]
  viewportH := 600
  viewportW := 800
  scrollX := 0
  scrollY := 0

/-- C8 witness page: an input followed by a sibling `<span>Name</span>`. -/
def c8wIn : Row :=
  { baseRow with
      nid := 1
      tag := "input"
      typeAttr := "text"
      offsetWidth := 100
      offsetHeight := 20
      rWidth := 100
      rHeight := 20
      hitCenter := some 1 }

def c8wSpan : Row :=
  { baseRow with
      nid := 2
      tag := "span"
      textContent := "Name"
      rLeft := 110
      rWidth := 50
      rHeight := 20 }

def c8wDoc : Doc where
  rows := [c8wIn, c8wSpan]
  viewportH := 600
  viewportW := 800
  scrollX := 0
  scrollY := 0

/-- A 60-character attribute value for the C9 witness. -/
def c9Val : String :=
  "aaaaaaaaaaaaaaaaaaaaaaaaaaaaaaaaaaaaaaaaaaaaaaaaaaaaaaaaaaaa"

/-- A row carrying the 60-character value as its `href`. -/
def c9Row : Row :=
  { baseRow with
      nid := 1
      tag := "a"
      attrs := [("href", c9Val)] }

/-- C10 counterexample page: a visible text input (node 2, rect 50×20 at
(10,10)) wrapped in a `<label>` (node 1) whose own client rect is a 3×3
sliver at the origin — the ancestor's rect does not contain the input's. -/
def c10Lbl : Row :=
  { baseRow with
      nid := 1
      tag := "label"
      rWidth := 3
      rHeight := 3 }

def c10In : Row :=
  { baseRow with
      nid := 2
      tag := "input"
      typeAttr := "text"
      offsetWidth := 50
      offsetHeight := 20
      rTop := 10
      rLeft := 10
      rWidth := 50
      rHeight := 20
      hitCenter := some 2
      ancestors := [1] }

def c10xDoc : Doc where
  rows := [c10Lbl, c10In]
  viewportH := 600
  viewportW := 800
  scrollX := 0
  scrollY := 0

/-- The drawn rectangle `o` geometrically encloses element `e`'s
document-relative bounding box. -/
def rectEncloses (o : Overlay) (d : Doc) (e : Row) : Prop :=
  o.top ≤ e.rTop + d.scrollY ∧ o.left ≤ e.rLeft + d.scrollX
    ∧ e.rTop + d.scrollY + e.rHeight ≤ o.top + o.height
    ∧ e.rLeft + d.scrollX + e.rWidth ≤ o.left + o.width

instance (o : Overlay) (d : Doc) (e : Row) : Decidable (rectEncloses o d e) := by
  unfold rectEncloses; infer_instance

/-! ### Closed forms of the two scans -/

theorem scan1_eq (d : Doc) (m : Markers) :
    scan1 d m = (candidates1 d).foldl (scanStep d descr1 primTarget1) ⟨0, [], [], []⟩ := rfl

theorem scan2_eq (d : Doc) (m : Markers) :
    scan2 d m = (candidates2 d).foldl (scanStep d descr2 primTarget2) ⟨0, [], [], []⟩ := rfl

theorem scan1_htmls (d : Doc) (m : Markers) :
    (scan1 d m).htmls
      = (List.enumFrom 0 (visible1 d)).map (fun p => (p.1, descr1 d p.2)) := by
  rw [scan1_eq, foldl_scanStep_htmls]
  simp [visible1]

theorem scan2_htmls (d : Doc) (m : Markers) :
    (scan2 d m).htmls
      = (List.enumFrom 0 (visible2 d)).map (fun p => (p.1, descr2 d p.2)) := by
  rw [scan2_eq, foldl_scanStep_htmls]
  simp [visible2]

theorem scan1_keys (d : Doc) (m : Markers) :
    (scan1 d m).htmls.map Prod.fst = List.range (visible1 d).length := by
  rw [scan1_htmls, List.map_map]
  have h : (Prod.fst ∘ fun p : Nat × Row => (p.1, descr1 d p.2)) = Prod.fst := rfl
  rw [h, List.enumFrom_map_fst, ← List.range_eq_range']

theorem scan2_keys (d : Doc) (m : Markers) :
    (scan2 d m).htmls.map Prod.fst = List.range (visible2 d).length := by
  rw [scan2_htmls, List.map_map]
  have h : (Prod.fst ∘ fun p : Nat × Row => (p.1, descr2 d p.2)) = Prod.fst := rfl
  rw [h, List.enumFrom_map_fst, ← List.range_eq_range']

theorem scan1_prim (d : Doc) (m : Markers) :
    (scan1 d m).prim
      = (List.enumFrom 0 (visible1 d)).foldl
          (fun mk p => setMarker mk (primTarget1 d p.2).nid p.1) [] := by
  rw [scan1_eq, foldl_scanStep_prim]
  simp [visible1]

theorem scan1_bbox (d : Doc) (m : Markers) :
    (scan1 d m).bbox
      = (List.enumFrom 0 (visible1 d)).foldl
          (fun mk p => setMarker mk (bboxTarget d p.2).nid p.1) [] := by
  rw [scan1_eq, foldl_scanStep_bbox]
  simp [visible1]

theorem scan2_prim (d : Doc) (m : Markers) :
    (scan2 d m).prim
      = (List.enumFrom 0 (visible2 d)).foldl
          (fun mk p => setMarker mk (primTarget2 d p.2).nid p.1) [] := by
  rw [scan2_eq, foldl_scanStep_prim]
  simp [visible2]

theorem scan2_bbox (d : Doc) (m : Markers) :
    (scan2 d m).bbox
      = (List.enumFrom 0 (visible2 d)).foldl
          (fun mk p => setMarker mk (bboxTarget d p.2).nid p.1) [] := by
  rw [scan2_eq, foldl_scanStep_bbox]
  simp [visible2]

theorem mem_enumFrom_of_mem {α : Type} (a : α) :
    ∀ (l : List α) (k : Nat), a ∈ l → ∃ i, (i, a) ∈ List.enumFrom k l := by
  intro l
  induction l with
  | nil => intro k h; simp at h
  | cons x t ih =>
    intro k h
    rcases List.mem_cons.mp h with rfl | h
    · exact ⟨k, by simp [List.enumFrom]⟩
    · obtain ⟨i, hi⟩ := ih (k + 1) h
      exact ⟨i, by simp [List.enumFrom, hi]⟩

theorem length_filter_nid (rows : List Row) (t : Nat) :
    (rows.filter (fun r => r.nid == t)).length = (rows.map Row.nid).count t := by
  induction rows with
  | nil => simp
  | cons a l ih =>
    by_cases h : a.nid = t
    · simp [List.filter_cons, List.count_cons, h, ih]
    · simp [List.filter_cons, List.count_cons, h, ih]

/-! ### Claim theorems -/

/-- Claim C1 (confirmed): handle density.  For both indexer variants, the
handles of the returned map are exactly 0, 1, ..., N-1 where N is the number
of candidates passing the visibility filter, and handle i is assigned to the
i-th visible candidate in candidate (document) traversal order with its
description. -/
theorem c1_handle_density (d : Doc) (m : Markers) :
    ((scan1 d m).htmls.map Prod.fst = List.range (visible1 d).length
      ∧ (scan1 d m).htmls
          = (List.enumFrom 0 (visible1 d)).map (fun p => (p.1, descr1 d p.2)))
    ∧ ((scan2 d m).htmls.map Prod.fst = List.range (visible2 d).length
      ∧ (scan2 d m).htmls
          = (List.enumFrom 0 (visible2 d)).map (fun p => (p.1, descr2 d p.2))) :=
  ⟨⟨scan1_keys d m, scan1_htmls d m⟩, ⟨scan2_keys d m, scan2_htmls d m⟩⟩

theorem strLength_append (s t : String) : (s ++ t).length = s.length + t.length := by
  cases s
  cases t
  show (List.length (_ ++ _)) = _
  simp [String.length]

/-- Claim C9 (confirmed): attribute value truncation in the rich indexer.
A value strictly longer than 50 characters is rendered as its first 47
characters followed by the 3-character "..." (total 50); a value of at most
50 characters passes through the truncation step unmodified; and the
description's attribute renderer serializes the (possibly truncated) value
in place. -/
theorem c9_attr_truncation (v : String) (e : Row) (a : String) :
    (50 < v.length →
      truncVal v = String.mk (v.toList.take 47) ++ "..."
        ∧ (truncVal v).length = 50)
    ∧ (v.length ≤ 50 → truncVal v = v)
    ∧ (a ∈ allowAttrs2 → getAttr? e a = some v → v ≠ "" →
        renderAttr2 e a = " " ++ a ++ "=\"" ++ truncVal v ++ "\"") := by
  refine ⟨?_, ?_, ?_⟩
  · intro hv
    constructor
    · unfold truncVal
      rw [if_pos hv]
    · unfold truncVal
      rw [if_pos hv]
      rw [strLength_append]
      have h1 : (String.mk (v.toList.take 47)).length = (v.toList.take 47).length := rfl
      have h2 : v.toList.length = v.length := rfl
      rw [h1, List.length_take]
      have : ("..." : String).length = 3 := rfl
      rw [this]
      omega
  · intro hv
    unfold truncVal
    rw [if_neg (by omega)]
  · intro _ hga hne
    unfold renderAttr2
    rw [hga]
    have hv1 : ¬ (v = "" ∧ a ∈ boolAttrs2) := fun ⟨h, _⟩ => hne h
    dsimp only
    rw [if_neg hv1]
    rw [if_pos (Or.inl hne)]

/-- Witness for C9 at the concrete 60-character value: it is longer than 50,
its truncation has exactly 50 characters, and the rendered `href` attribute
carries the truncated value. -/
theorem c9_attr_truncation_witness :
    50 < c9Val.length ∧ (truncVal c9Val).length = 50
      ∧ renderAttr2 c9Row "href" = " " ++ "href" ++ "=\"" ++ truncVal c9Val ++ "\"" :=
  ⟨by decide,
   ((c9_attr_truncation c9Val c9Row "href").1 (by decide)).2,
   (c9_attr_truncation c9Val c9Row "href").2.2 (by decide) (by decide) (by decide)⟩

/-- Claim C10 (amended): `getParentWithLabel` is total (it is a terminating
function of the snapshot by construction) and returns either the element
itself or one of its proper DOM ancestors; consequently the bbox marker for
`input`/`textarea`/`select` is always placed on the element or an ancestor,
never on an unrelated node.  The geometric-enclosure consequence claimed in
C10 does NOT follow (see the counterexample): a DOM ancestor's client rect
need not contain the element's. -/
theorem c10_label_ancestor (d : Doc) (e : Row) :
    (getParentWithLabel d e = e ∨ (getParentWithLabel d e).nid ∈ e.ancestors)
    ∧ (bboxTarget d e = e ∨ (bboxTarget d e).nid ∈ e.ancestors) :=
  ⟨getParentWithLabel_self_or_anc d e, bboxTarget_self_or_anc d e⟩

/-- Counterexample to C10's enclosure consequence: on `c10xDoc` the visible
input's bbox marker lands on its `<label>` ancestor (node 1), whose 3×3 rect
does not contain the input's 50×20 rect, so the rectangle drawn for handle 0
does not enclose the control it labels. -/
theorem c10_enclosure_counterexample :
    (bboxTarget c10xDoc c10In).nid ∈ c10In.ancestors
    ∧ (draw000 c10xDoc (scan1 c10xDoc noMarkers).prim
          (scan1 c10xDoc noMarkers).bbox [] [0]).1
        = [⟨"GWA-rect", 0, 0, 3, 3, 0⟩, ⟨"GWA-label", -16, 0, 0, 0, 0⟩]
    ∧ ¬ rectEncloses ⟨"GWA-rect", 0, 0, 3, 3, 0⟩ c10xDoc c10In :=
  ⟨by decide, by decide, by decide⟩

/-- Claim C3 (amended): an element hidden by itself or an ancestor
(`display:none` / `visibility:hidden`) is always invisible and so gets no
handle; an element whose bounding box does not lie entirely in the viewport
is invisible UNLESS it is a radio/checkbox input accepted by the label-hit
early return (`formHitEarly`), which bypasses the viewport check — the
unconditional viewport exclusion asserted by C3 fails exactly there (see the
counterexample). -/
theorem c3_visibility_exclusion (d : Doc) (e : Row) :
    (isHiddenByAncestors d e = true → isElementVisible d e = false)
    ∧ (formHitEarly d e = false →
        ¬ (0 ≤ e.rTop ∧ 0 ≤ e.rLeft ∧ e.rTop + e.rHeight ≤ d.viewportH
            ∧ e.rLeft + e.rWidth ≤ d.viewportW) →
        isElementVisible d e = false)
    ∧ (isElementVisible d e = false → e ∉ visible1 d ∧ e ∉ visible2 d) := by
  refine ⟨?_, ?_, ?_⟩
  · intro h
    unfold isElementVisible
    rw [if_pos h]
  · intro hfe hvp
    unfold isElementVisible
    split
    · rfl
    split
    · rfl
    split
    · rfl
    split
    · rfl
    split
    · next h => rw [hfe] at h; exact absurd h (by simp)
    split
    · rfl
    split
    · rfl
    · exact decide_eq_false hvp
  · intro h
    constructor
    · intro hmem
      have := (List.mem_filter.mp hmem).2
      simp only [h] at this
      exact absurd this (by simp)
    · intro hmem
      have := (List.mem_filter.mp hmem).2
      simp only [h] at this
      exact absurd this (by simp)

/-- Witness for C3 (amended) on `c3wDoc`: the `display:none` button is
invisible via the hidden-ancestors conjunct, and the button whose box ends
below the 600px viewport is invisible via the viewport conjunct. -/
theorem c3_visibility_exclusion_witness :
    isElementVisible c3wDoc c3wHidden = false
      ∧ isElementVisible c3wDoc c3wBelow = false :=
  ⟨(c3_visibility_exclusion c3wDoc c3wHidden).1 (by decide),
   (c3_visibility_exclusion c3wDoc c3wBelow).2.1 (by decide) (by decide)⟩

/-- Counterexample to C3 as stated: on `c3xDoc` the checkbox `c3Cb` has
`rect.top = -10 < 0`, so its box does not lie entirely within the viewport,
yet it is visible (the hit test at its center lands on its
`label[for="cb"]`, taking the early return that skips the viewport check)
and `scan1` assigns it handle 0. -/
theorem c3_viewport_counterexample :
    isElementVisible c3xDoc c3Cb = true
    ∧ ¬ (0 ≤ c3Cb.rTop)
    ∧ visible1 c3xDoc = [c3Cb]
    ∧ (scan1 c3xDoc noMarkers).htmls.map Prod.fst = [0] :=
  ⟨by decide, by decide, by decide, by decide⟩

/-- Claim C4 (confirmed): the small-toggle exemption.  For a radio/checkbox
input of rendered size at most 1×1px whose label-bearing ancestor is a
proper ancestor: if that ancestor's rect has width or height at most 1px the
input is excluded unconditionally; if the element is not hidden, not
`pointer-events:none`, the ancestor is larger than 1×1 and the hit test at
the input's center lands on its `label[for]` or on an ancestor containing it
(`formHitEarly`), the input passes the visibility filter; and every visible
candidate receives a handle in the returned map. -/
theorem c4_small_toggle (d : Doc) (e : Row)
    (hsmall : isSmallForm e = true)
    (hne : (getParentWithLabel d e).nid ≠ e.nid) :
    (((getParentWithLabel d e).rWidth ≤ 1 ∨ (getParentWithLabel d e).rHeight ≤ 1) →
        isElementVisible d e = false)
    ∧ (isHiddenByAncestors d e = false → e.pointerEvents ≠ "none" →
        1 < (getParentWithLabel d e).rWidth → 1 < (getParentWithLabel d e).rHeight →
        formHitEarly d e = true →
        isElementVisible d e = true)
    ∧ (∀ m : Markers, e ∈ candidates1 d → isElementVisible d e = true →
        ∃ i, (i, descr1 d e) ∈ (scan1 d m).htmls) := by
  refine ⟨?_, ?_, ?_⟩
  · intro htiny
    unfold isElementVisible
    split
    · rfl
    split
    · rfl
    split
    · rfl
    split
    · rfl
    · next h4 => exact absurd ⟨hsmall, hne, htiny⟩ h4
  · intro hh hp hw hht hfe
    have h1 : ¬ (isHiddenByAncestors d e = true) := by simp [hh]
    have h3 : ¬ (isSmallForm e = false ∧ (e.offsetWidth ≤ 1 ∨ e.offsetHeight ≤ 1
        ∨ e.visibility = "hidden" ∨ e.display = "none")) := by
      rintro ⟨h, -⟩
      rw [hsmall] at h
      exact absurd h (by simp)
    have h4 : ¬ (isSmallForm e = true ∧ (getParentWithLabel d e).nid ≠ e.nid
        ∧ ((getParentWithLabel d e).rWidth ≤ 1 ∨ (getParentWithLabel d e).rHeight ≤ 1)) := by
      rintro ⟨-, -, ht | ht⟩ <;> omega
    unfold isElementVisible
    rw [if_neg h1, if_neg hp, if_neg h3, if_neg h4, if_pos hfe]
  · intro m hc hv
    have hvmem : e ∈ visible1 d := List.mem_filter.mpr ⟨hc, by simp [hv]⟩
    obtain ⟨i, hi⟩ := mem_enumFrom_of_mem e (visible1 d) 0 hvmem
    refine ⟨i, ?_⟩
    rw [scan1_htmls]
    exact List.mem_map.mpr ⟨(i, e), hi, rfl⟩

/-- Witness for C4 on `c4wDoc`: the 0×0 checkbox inside the 120×30 label is
visible, and receives a handle in the scan. -/
theorem c4_small_toggle_witness :
    isSmallForm c4Cb = true
    ∧ (getParentWithLabel c4wDoc c4Cb).nid ≠ c4Cb.nid
    ∧ isElementVisible c4wDoc c4Cb = true := by
  refine ⟨by decide, by decide, ?_⟩
  exact (c4_small_toggle c4wDoc c4Cb (by decide) (by decide)).2.1
    (by decide) (by decide) (by decide) (by decide) (by decide)

theorem drawNodes_idx (d : Doc) (bbox : List (Nat × Nat)) (j : Nat) (o : Overlay)
    (ho : o ∈ drawNodes d bbox j) : o.idx = j := by
  unfold drawNodes at ho
  split at ho
  · simp at ho
  · unfold overlayNodes at ho
    rcases List.mem_cons.mp ho with h | h
    · rw [h]
    · have hh : o ∈ [_] := h
      simp at hh
      rw [hh]

theorem drawNodes_none (d : Doc) (bbox : List (Nat × Nat)) (i : Nat)
    (h : resolveBbox d bbox i = none) : drawNodes d bbox i = [] := by
  unfold drawNodes
  rw [h]

theorem list_isEmpty_false {α : Type} (l : List α) (h : l ≠ []) :
    l.isEmpty = false := by
  cases l with
  | nil => exact absurd rfl h
  | cons a t => rfl

/-- Claim C7 (confirmed): the renderer's error handling and return value.
For any nonempty requested handle list: it returns the length of the input
(counting skipped handles); a handle resolving to no marked element
contributes no overlay node at all (while the other handles are still
processed); and the number of rectangles drawn equals the number of
resolvable requested handles. -/
theorem c7_draw_skip_and_count (d : Doc) (prim bbox : List (Nat × Nat))
    (ov : List Overlay) (hs : List Nat) (hne : hs ≠ []) :
    (draw000 d prim bbox ov hs).2 = hs.length
    ∧ (∀ i ∈ hs, resolveBbox d bbox i = none →
        ((draw000 d prim bbox ov hs).1.filter
          (fun o => (o.cls == "GWA-rect" || o.cls == "GWA-label") && o.idx == i)) = [])
    ∧ ((draw000 d prim bbox ov hs).1.countP (fun o => o.cls == "GWA-rect")
        = hs.countP (fun i => (resolveBbox d bbox i).isSome)) := by
  have hnem : hs.isEmpty = false := list_isEmpty_false hs hne
  unfold draw000
  rw [if_neg (by simp [hnem])]
  dsimp only
  refine ⟨rfl, ?_, ?_⟩
  · intro i hi hres
    rw [foldl_drawOne_eq, List.filter_append]
    have hcl : (clearOverlays ov).filter
        (fun o => (o.cls == "GWA-rect" || o.cls == "GWA-label") && o.idx == i) = [] := by
      rw [List.filter_eq_nil_iff]
      intro o ho hqo
      have h1 := (List.mem_filter.mp (List.mem_of_mem_filter ho)).2
      have h2 := (List.mem_filter.mp ho).2
      rcases (Bool.and_eq_true _ _).mp hqo with ⟨hcls, -⟩
      rcases Bool.or_eq_true_iff.mp hcls with h | h
      · rw [beq_iff_eq.mp h] at h1
        simp at h1
      · rw [beq_iff_eq.mp h] at h2
        simp at h2
    have hfm : (hs.flatMap (drawNodes d bbox)).filter
        (fun o => (o.cls == "GWA-rect" || o.cls == "GWA-label") && o.idx == i) = [] := by
      rw [List.filter_eq_nil_iff]
      intro o ho hqo
      obtain ⟨k, hk, hok⟩ := List.mem_flatMap.mp ho
      rcases (Bool.and_eq_true _ _).mp hqo with ⟨-, hidx⟩
      have hoi : o.idx = i := beq_iff_eq.mp hidx
      have hok2 : o.idx = k := drawNodes_idx d bbox k o hok
      have hki : k = i := by rw [← hok2, hoi]
      rw [hki] at hok
      rw [drawNodes_none d bbox i hres] at hok
      simp at hok
    rw [hcl, hfm]
    rfl
  · rw [foldl_drawOne_eq, List.countP_append]
    rw [countP_clearOverlays_zero ov _ (fun o h => Or.inl (beq_iff_eq.mp h))]
    rw [countP_flatMap_rect]
    omega

/-- Witness for C7 on `c5Doc` after a scan marking handle 0: requesting
handles [5, 0] (5 unresolvable) returns 2 and draws exactly one rectangle. -/
theorem c7_draw_skip_and_count_witness :
    (draw000 c5Doc (scan1 c5Doc noMarkers).prim (scan1 c5Doc noMarkers).bbox
        [] [5, 0]).2 = 2
    ∧ (draw000 c5Doc (scan1 c5Doc noMarkers).prim (scan1 c5Doc noMarkers).bbox
        [] [5, 0]).1.countP (fun o => o.cls == "GWA-rect") = 1 := by
  have h := c7_draw_skip_and_count c5Doc (scan1 c5Doc noMarkers).prim
    (scan1 c5Doc noMarkers).bbox [] [5, 0] (by decide)
  refine ⟨h.1, ?_⟩
  rw [h.2.2]
  decide

theorem countP_drawNodes_rect_idx (d : Doc) (bbox : List (Nat × Nat)) (i : Nat) :
    (drawNodes d bbox i).countP (fun o => o.cls == "GWA-rect" && o.idx == i)
      = if (resolveBbox d bbox i).isSome then 1 else 0 := by
  unfold drawNodes
  split
  · next h => simp [h]
  · next el h => simp [h, overlayNodes, List.countP_cons]

theorem countP_drawNodes_label_idx (d : Doc) (bbox : List (Nat × Nat)) (i : Nat) :
    (drawNodes d bbox i).countP (fun o => o.cls == "GWA-label" && o.idx == i)
      = if (resolveBbox d bbox i).isSome then 1 else 0 := by
  unfold drawNodes
  split
  · next h => simp [h]
  · next el h => simp [h, overlayNodes, List.countP_cons]

/-- Claim C5 (confirmed): idempotence of both operations with respect to DOM
artifacts.  Re-scanning after a scan (DOM otherwise unchanged) produces the
identical scan state — handle→description map included — because the reset
phase deletes every marker before rebuilding them; the marker assignment
produced by a scan has at most one primary and one bbox binding per element;
re-drawing the same (distinct, nonempty) handle list reproduces exactly the
overlay list of the first draw, because the clear phase removes every
previously injected overlay node; and each drawn handle owns exactly one
rectangle node and one label node (none when it does not resolve). -/
theorem c5_idempotence (d : Doc) (m : Markers) (prim bbox : List (Nat × Nat))
    (ov : List Overlay) (hs : List Nat) (hne : hs ≠ []) (hnd : hs.Nodup) :
    scan1 d ⟨(scan1 d m).prim, (scan1 d m).bbox⟩ = scan1 d m
    ∧ scan2 d ⟨(scan2 d m).prim, (scan2 d m).bbox⟩ = scan2 d m
    ∧ keysNodup (scan1 d m).prim ∧ keysNodup (scan1 d m).bbox
    ∧ keysNodup (scan2 d m).prim ∧ keysNodup (scan2 d m).bbox
    ∧ (draw000 d prim bbox (draw000 d prim bbox ov hs).1 hs).1
        = (draw000 d prim bbox ov hs).1
    ∧ (∀ i ∈ hs,
        (draw000 d prim bbox ov hs).1.countP
            (fun o => o.cls == "GWA-rect" && o.idx == i)
          = (if (resolveBbox d bbox i).isSome then 1 else 0)
        ∧ (draw000 d prim bbox ov hs).1.countP
            (fun o => o.cls == "GWA-label" && o.idx == i)
          = (if (resolveBbox d bbox i).isSome then 1 else 0)) := by
  have hnem : hs.isEmpty = false := list_isEmpty_false hs hne
  refine ⟨rfl, rfl, ?_, ?_, ?_, ?_, ?_, ?_⟩
  · rw [scan1_prim]
    exact markerFold_keysNodup _ _ [] (by simp [keysNodup])
  · rw [scan1_bbox]
    exact markerFold_keysNodup _ _ [] (by simp [keysNodup])
  · rw [scan2_prim]
    exact markerFold_keysNodup _ _ [] (by simp [keysNodup])
  · rw [scan2_bbox]
    exact markerFold_keysNodup _ _ [] (by simp [keysNodup])
  · unfold draw000
    rw [if_neg (by simp [hnem])]
    dsimp only
    rw [foldl_drawOne_eq, foldl_drawOne_eq]
    rw [clearOverlays_append, clearOverlays_idem, clearOverlays_drawNodes]
    simp
  · intro i hi
    unfold draw000
    rw [if_neg (by simp [hnem])]
    dsimp only
    rw [foldl_drawOne_eq]
    constructor
    · rw [List.countP_append]
      rw [countP_clearOverlays_zero ov _
        (fun o h => Or.inl (beq_iff_eq.mp ((Bool.and_eq_true _ _).mp h).1))]
      rw [countP_flatMap_single (drawNodes d bbox) _ i
        (fun j hj => countP_drawNodes_other d bbox i j _
          (fun o h => beq_iff_eq.mp ((Bool.and_eq_true _ _).mp h).2) hj)
        hs hnd hi]
      rw [countP_drawNodes_rect_idx]
      omega
    · rw [List.countP_append]
      rw [countP_clearOverlays_zero ov _
        (fun o h => Or.inr (beq_iff_eq.mp ((Bool.and_eq_true _ _).mp h).1))]
      rw [countP_flatMap_single (drawNodes d bbox) _ i
        (fun j hj => countP_drawNodes_other d bbox i j _
          (fun o h => beq_iff_eq.mp ((Bool.and_eq_true _ _).mp h).2) hj)
        hs hnd hi]
      rw [countP_drawNodes_label_idx]
      omega

/-- Witness for C5 on `c5Doc` with handle list [0]: the rescan reproduces
the scan state and the second draw reproduces the first draw's overlays. -/
theorem c5_idempotence_witness :
    scan1 c5Doc ⟨(scan1 c5Doc noMarkers).prim, (scan1 c5Doc noMarkers).bbox⟩
        = scan1 c5Doc noMarkers
    ∧ (draw000 c5Doc [(1, 0)] [(1, 0)]
          (draw000 c5Doc [(1, 0)] [(1, 0)] [] [0]).1 [0]).1
        = (draw000 c5Doc [(1, 0)] [(1, 0)] [] [0]).1 :=
  ⟨(c5_idempotence c5Doc noMarkers [(1, 0)] [(1, 0)] [] [0]
      (by decide) (by decide)).1,
   (c5_idempotence c5Doc noMarkers [(1, 0)] [(1, 0)] [] [0]
      (by decide) (by decide)).2.2.2.2.2.2.1⟩

/-- Counterexample to C6 as stated: on `c6Doc` after the part_001 scan, the
elements carrying a bbox marker are the button (handle 0) and the label
(handle 1), but the no-argument draw derives its handle list from the
elements carrying the PRIMARY marker (button and input), parsing the
input's absent bbox attribute as 0 — so it processes [0, 0], omitting
handle 1 entirely. -/
theorem c6_default_counterexample :
    defaultIndices000 c6Doc (scan1 c6Doc noMarkers).prim
        (scan1 c6Doc noMarkers).bbox = [0, 0]
    ∧ claimedDefaultIndices c6Doc (scan1 c6Doc noMarkers).bbox = [0, 1]
    ∧ 1 ∉ defaultIndices000 c6Doc (scan1 c6Doc noMarkers).prim
        (scan1 c6Doc noMarkers).bbox
    ∧ (draw000 c6Doc (scan1 c6Doc noMarkers).prim
        (scan1 c6Doc noMarkers).bbox [] []).1.countP (fun o => o.idx == 1) = 0 :=
  ⟨by decide, by decide, by decide, by decide⟩

/-- Claim C6 (amended): the no-argument draw derives its default handles
from the elements carrying the PRIMARY marker, reading each one's bbox
attribute and parsing a missing attribute as 0.  Whenever primary and bbox
markers agree on every element (for example when no form control re-routed
its bbox marker to a label-bearing ancestor), this equals the handle set
read off the bbox-marked elements, as the claim states. -/
theorem c6_default_agreement (d : Doc) (prim bbox : List (Nat × Nat))
    (hagree : ∀ r ∈ d.rows, List.lookup r.nid prim = List.lookup r.nid bbox) :
    defaultIndices000 d prim bbox = claimedDefaultIndices d bbox
    ∧ (draw000 d prim bbox [] []).1
        = (claimedDefaultIndices d bbox).foldl (drawOne d bbox) [] := by
  have h1 : defaultIndices000 d prim bbox = claimedDefaultIndices d bbox := by
    unfold defaultIndices000 claimedDefaultIndices
    rw [List.filter_congr (fun r hr => by rw [hagree r hr])]
    apply List.map_congr_left
    intro r _
    cases h : List.lookup r.nid bbox with
    | none => simp [h]
    | some x => simp [h]
  refine ⟨h1, ?_⟩
  unfold draw000
  rw [if_pos (by rfl)]
  dsimp only
  rw [h1]
  have hclear : clearOverlays [] = [] := rfl
  rw [hclear]

/-- Witness for C6 (amended) on `c5Doc`: after the scan both markers sit on
the single button, the agreement hypothesis holds, and the default handle
lists coincide. -/
theorem c6_default_agreement_witness :
    defaultIndices000 c5Doc (scan1 c5Doc noMarkers).prim
        (scan1 c5Doc noMarkers).bbox
      = claimedDefaultIndices c5Doc (scan1 c5Doc noMarkers).bbox :=
  (c6_default_agreement c5Doc (scan1 c5Doc noMarkers).prim
    (scan1 c5Doc noMarkers).bbox (by decide)).1

/-- Counterexample to C8 as stated: the five-step chain (i)-(v) is not what
either variant computes.  On `c8xDocA` the input's only datum is
`value="V"`: the claimed chain yields "V" (step (v)) but part_002's fallback
yields "" (it has no `value`/`placeholder` step).  On `c8xDocB` the input's
only neighbour is a preceding `<div>Prev</div>`: the claimed chain yields
"Prev" (step (iv)) but part_001's fallback yields "" (it has no
any-sibling step). -/
theorem c8_fallback_counterexample :
    c8VIn.innerTextProp = ""
    ∧ innerText2 c8xDocA c8VIn = ""
    ∧ claimedFallbackChain c8xDocA c8VIn = "V"
    ∧ rnl c8PIn.textContent = ""
    ∧ innerText1 c8xDocB c8PIn = ""
    ∧ claimedFallbackChain c8xDocB c8PIn = "Prev" :=
  ⟨by decide, by decide, by decide, by decide, by decide, by decide⟩

/-- Claim C8 (amended): for an `<input>` whose own rendered text is empty,
part_001 computes the first non-empty of (i) the `label[for]` text, (ii) the
wrapping label text, (iii) an adjacent sibling span's text (next, then
previous), then (v) the `value`/`placeholder` attribute — with no
any-sibling step; part_002 computes the first non-empty of (i), (ii), (iii),
then (iv') the NEXT sibling's text regardless of tag (with the code's
literal backslash-n replace) — and never reads `value`/`placeholder`.
In particular an input with an adjacent `<span>Name</span>` sibling gets
inner text "Name" in both variants (see the witness). -/
theorem c8_fallback_chains (d : Doc) (e : Row) (htag : e.tag = "input") :
    (rnl e.textContent = "" →
      innerText1 d e = firstNonEmpty
        [labelForText d e, wrapLabelText d e, spanSiblingText d e,
         valuePlaceholder e])
    ∧ (e.innerTextProp = "" →
      innerText2 d e = firstNonEmpty
        [labelForText d e, wrapLabelText d e, spanSiblingText d e,
         nextAnyText d e]) := by
  constructor
  · intro h0
    unfold innerText1
    rw [if_pos ⟨htag, h0⟩]
    simp only [firstNonEmpty]
    split_ifs <;> try rfl
    next hvp => exact not_not.mp hvp
  · intro h0
    unfold innerText2
    rw [if_pos ⟨htag, h0⟩]
    simp only [firstNonEmpty]
    split_ifs <;> try rfl
    next hna => exact not_not.mp hna

/-- Witness for C8 (amended) on `c8wDoc`: the input's own text is empty and
the chain — hence the computed inner text — is "Name", from the adjacent
`<span>Name</span>` sibling. -/
theorem c8_fallback_chains_witness :
    rnl c8wIn.textContent = ""
    ∧ innerText1 c8wDoc c8wIn = firstNonEmpty
        [labelForText c8wDoc c8wIn, wrapLabelText c8wDoc c8wIn,
         spanSiblingText c8wDoc c8wIn, valuePlaceholder c8wIn]
    ∧ innerText1 c8wDoc c8wIn = "Name"
    ∧ innerText2 c8wDoc c8wIn = "Name" :=
  ⟨by decide,
   (c8_fallback_chains c8wDoc c8wIn (by decide)).1 (by decide),
   by decide, by decide⟩

theorem bbox_carriers_count (d : Doc) (v : List Row)
    (hsub : ∀ e ∈ v, e ∈ d.rows)
    (hids : (d.rows.map Row.nid).Nodup)
    (htgt : (v.map (fun e => (bboxTarget d e).nid)).Nodup)
    (h : Nat) :
    (d.rows.filter (fun r =>
        List.lookup r.nid ((List.enumFrom 0 v).map
          (fun p => ((bboxTarget d p.2).nid, p.1))) == some h)).length
      = if h < v.length then 1 else 0 := by
  have hmapeq : (List.enumFrom 0 v).map (fun p => (bboxTarget d p.2).nid)
      = v.map (fun e => (bboxTarget d e).nid) := by
    have hc : (fun p : Nat × Row => (bboxTarget d p.2).nid)
        = ((fun e => (bboxTarget d e).nid) ∘ Prod.snd) := rfl
    rw [hc, ← List.map_map, List.enumFrom_map_snd]
  have hBkeys : keysNodup ((List.enumFrom 0 v).map
      (fun p => ((bboxTarget d p.2).nid, p.1))) := by
    unfold keysNodup
    rw [List.map_map]
    have hc : (Prod.fst ∘ fun p : Nat × Row => ((bboxTarget d p.2).nid, p.1))
        = (fun p : Nat × Row => (bboxTarget d p.2).nid) := rfl
    rw [hc, hmapeq]
    exact htgt
  have hmemB : ∀ (t : Nat),
      ((t, h) ∈ (List.enumFrom 0 v).map (fun p => ((bboxTarget d p.2).nid, p.1)))
        ↔ (∃ hh : h < v.length, t = (bboxTarget d (v.get ⟨h, hh⟩)).nid) := by
    intro t
    constructor
    · intro hmem
      obtain ⟨p, hp, hpe⟩ := List.mem_map.mp hmem
      obtain ⟨j, hj, hje⟩ := List.mem_iff_getElem.mp hp
      have hjv : j < v.length := by
        have := hj
        rw [List.enumFrom_length] at this
        exact this
      rw [List.getElem_enumFrom] at hje
      rw [Nat.zero_add] at hje
      rw [← hje] at hpe
      have hj_h : j = h := congrArg Prod.snd hpe
      have ht : (bboxTarget d v[j]).nid = t := congrArg Prod.fst hpe
      subst hj_h
      refine ⟨hjv, ?_⟩
      rw [← ht, List.get_eq_getElem]
    · rintro ⟨hh, ht⟩
      apply List.mem_map.mpr
      refine ⟨(h, v.get ⟨h, hh⟩), ?_, ?_⟩
      · apply List.mem_iff_getElem.mpr
        refine ⟨h, ?_, ?_⟩
        · rw [List.enumFrom_length]
          exact hh
        · rw [List.getElem_enumFrom, Nat.zero_add]
          rw [List.get_eq_getElem]
      · rw [ht]
  by_cases hN : h < v.length
  · rw [if_pos hN]
    have hcong : ∀ r ∈ d.rows,
        (List.lookup r.nid ((List.enumFrom 0 v).map
            (fun p => ((bboxTarget d p.2).nid, p.1))) == some h)
          = (r.nid == (bboxTarget d (v.get ⟨h, hN⟩)).nid) := by
      intro r _
      by_cases hr : List.lookup r.nid ((List.enumFrom 0 v).map
          (fun p => ((bboxTarget d p.2).nid, p.1))) = some h
      · have hmem := (lookup_iff_mem_of_keysNodup _ hBkeys r.nid h).mp hr
        obtain ⟨hh, ht⟩ := (hmemB r.nid).mp hmem
        have ht2 : r.nid = (bboxTarget d (v.get ⟨h, hN⟩)).nid := ht
        rw [beq_iff_eq.mpr hr, beq_iff_eq.mpr ht2]
      · have hrn : r.nid ≠ (bboxTarget d (v.get ⟨h, hN⟩)).nid := by
          intro hEq
          apply hr
          apply (lookup_iff_mem_of_keysNodup _ hBkeys r.nid h).mpr
          apply (hmemB r.nid).mpr
          exact ⟨hN, hEq⟩
        rw [beq_eq_false_iff_ne.mpr hr, beq_eq_false_iff_ne.mpr hrn]
    rw [List.filter_congr hcong]
    rw [length_filter_nid]
    apply List.count_eq_one_of_mem hids
    have hvh : v.get ⟨h, hN⟩ ∈ v := List.get_mem v h hN
    have hrows : v.get ⟨h, hN⟩ ∈ d.rows := hsub _ hvh
    exact List.mem_map.mpr ⟨_, bboxTarget_mem d _ hrows, rfl⟩
  · rw [if_neg hN]
    rw [List.length_eq_zero, List.filter_eq_nil_iff]
    intro r _ hcontra
    have hr : List.lookup r.nid ((List.enumFrom 0 v).map
        (fun p => ((bboxTarget d p.2).nid, p.1))) = some h := by
      simpa using hcontra
    have hmem := (lookup_iff_mem_of_keysNodup _ hBkeys r.nid h).mp hr
    obtain ⟨hh, -⟩ := (hmemB r.nid).mp hmem
    exact hN hh

theorem bbox_fold_closed (d : Doc) (v : List Row)
    (htgt : (v.map (fun e => (bboxTarget d e).nid)).Nodup) :
    (List.enumFrom 0 v).foldl
        (fun mk p => setMarker mk (bboxTarget d p.2).nid p.1) []
      = (List.enumFrom 0 v).map (fun p => ((bboxTarget d p.2).nid, p.1)) := by
  have hmapeq : (List.enumFrom 0 v).map (fun p => (bboxTarget d p.2).nid)
      = v.map (fun e => (bboxTarget d e).nid) := by
    have hc : (fun p : Nat × Row => (bboxTarget d p.2).nid)
        = ((fun e => (bboxTarget d e).nid) ∘ Prod.snd) := rfl
    rw [hc, ← List.map_map, List.enumFrom_map_snd]
  have hfold := markerFold_eq_append (fun p : Nat × Row => (bboxTarget d p.2).nid)
    (List.enumFrom 0 v) [] (by rw [hmapeq]; exact htgt) (by simp)
  rw [hfold]
  simp

/-- Claim C2 (amended): handle-set agreement between Indexer and Renderer.
After any single scan — either variant — PROVIDED the bbox target elements
of that scan's visible candidates are pairwise distinct (no two visible form
controls share a label-bearing ancestor, and no bbox target collides with
another marked node), every handle in the returned map has exactly one
element carrying its bbox marker, and a handle outside the map has none.
Without that proviso the claim fails in both variants, whose bbox placement
code is identical: a later bbox write overwrites an earlier handle on a
shared target (see the counterexample). -/
theorem c2_marker_agreement (d : Doc) (m : Markers)
    (hids : (d.rows.map Row.nid).Nodup) :
    (((visible1 d).map (fun e => (bboxTarget d e).nid)).Nodup →
      ∀ h : Nat,
        (d.rows.filter
            (fun r => List.lookup r.nid (scan1 d m).bbox == some h)).length
          = if h ∈ (scan1 d m).htmls.map Prod.fst then 1 else 0)
    ∧ (((visible2 d).map (fun e => (bboxTarget d e).nid)).Nodup →
      ∀ h : Nat,
        (d.rows.filter
            (fun r => List.lookup r.nid (scan2 d m).bbox == some h)).length
          = if h ∈ (scan2 d m).htmls.map Prod.fst then 1 else 0) := by
  constructor
  · intro htgt h
    have hB : (scan1 d m).bbox
        = (List.enumFrom 0 (visible1 d)).map
            (fun p => ((bboxTarget d p.2).nid, p.1)) := by
      rw [scan1_bbox, bbox_fold_closed d (visible1 d) htgt]
    have hsub : ∀ e ∈ visible1 d, e ∈ d.rows := by
      intro e he
      unfold visible1 at he
      unfold candidates1 at he
      exact List.mem_of_mem_filter (List.mem_of_mem_filter he)
    have hcount := bbox_carriers_count d (visible1 d) hsub hids htgt h
    rw [scan1_keys]
    simp only [hB]
    rw [hcount]
    by_cases hN : h < (visible1 d).length
    · rw [if_pos hN, if_pos (List.mem_range.mpr hN)]
    · rw [if_neg hN, if_neg (fun hc => hN (List.mem_range.mp hc))]
  · intro htgt h
    have hB : (scan2 d m).bbox
        = (List.enumFrom 0 (visible2 d)).map
            (fun p => ((bboxTarget d p.2).nid, p.1)) := by
      rw [scan2_bbox, bbox_fold_closed d (visible2 d) htgt]
    have hsub : ∀ e ∈ visible2 d, e ∈ d.rows := by
      intro e he
      unfold visible2 at he
      unfold candidates2 at he
      exact List.mem_of_mem_filter (List.mem_of_mem_filter he)
    have hcount := bbox_carriers_count d (visible2 d) hsub hids htgt h
    rw [scan2_keys]
    simp only [hB]
    rw [hcount]
    by_cases hN : h < (visible2 d).length
    · rw [if_pos hN, if_pos (List.mem_range.mpr hN)]
    · rw [if_neg hN, if_neg (fun hc => hN (List.mem_range.mp hc))]

/-- Counterexample to C2 as stated: on `c2Doc` (a label wrapping two visible
text inputs) either variant's scan returns handles 0 and 1, but both bbox
markers were written onto the shared label ancestor, the second write
overwriting the first — no element carries the bbox marker for handle 0. -/
theorem c2_marker_counterexample :
    (scan1 c2Doc noMarkers).htmls.map Prod.fst = [0, 1]
    ∧ (scan1 c2Doc noMarkers).bbox = [(1, 1)]
    ∧ (c2Doc.rows.filter
        (fun r => List.lookup r.nid (scan1 c2Doc noMarkers).bbox == some 0)).length
        = 0
    ∧ (scan2 c2Doc noMarkers).htmls.map Prod.fst = [0, 1]
    ∧ (scan2 c2Doc noMarkers).bbox = [(1, 1)]
    ∧ (c2Doc.rows.filter
        (fun r => List.lookup r.nid (scan2 c2Doc noMarkers).bbox == some 0)).length
        = 0 :=
  ⟨by decide, by decide, by decide, by decide, by decide, by decide⟩

/-- Witness for C2 (amended) on `c2wDoc` (a single button), in both
variants: handle 0 (in the map) has exactly one bbox carrier; handle 7
(outside the map) has none. -/
theorem c2_marker_agreement_witness :
    (c2wDoc.rows.filter
        (fun r => List.lookup r.nid (scan1 c2wDoc noMarkers).bbox == some 0)).length
      = 1
    ∧ (c2wDoc.rows.filter
        (fun r => List.lookup r.nid (scan2 c2wDoc noMarkers).bbox == some 0)).length
      = 1
    ∧ (c2wDoc.rows.filter
        (fun r => List.lookup r.nid (scan2 c2wDoc noMarkers).bbox == some 7)).length
      = 0 := by
  refine ⟨?_, ?_, ?_⟩
  · rw [(c2_marker_agreement c2wDoc noMarkers (by decide)).1 (by decide) 0]
    decide
  · rw [(c2_marker_agreement c2wDoc noMarkers (by decide)).2 (by decide) 0]
    decide
  · rw [(c2_marker_agreement c2wDoc noMarkers (by decide)).2 (by decide) 7]
    decide
